import Mathlib

/-!
Verification of the Django security auditor
(`src/skills/django-security/scripts/security_auditor.py`) against its
natural-language specification.

The Python script is shallowly embedded: each scanner becomes a pure Lean
function from file contents (given as strings) to lists of `SecurityIssue`
records, the CLI driver `main` becomes `runAudit`, and the handful of
regular expressions the script uses are hand-compiled to executable
matchers over `List Char` with the same semantics (leftmost search,
greedy character classes, optional `re.IGNORECASE`).
-/

namespace SecurityAuditor

/-- Character-list shorthand used by the matcher combinators. -/
abbrev Cs := List Char

/-- Python `\s` for the ASCII range (space, tab, newline, CR, VT, FF). -/
def isPySpace (c : Char) : Bool :=
  c = ' ' || c = '\t' || c = '\n' || c = '\r' || c = '\x0b' || c = '\x0c'

/-- Python `\w` for the ASCII range: letters, digits, underscore. -/
def isWordChar (c : Char) : Bool :=
  c.isAlpha || c.isDigit || c = '_'

/-- A single or double quote, the character class `["\']` of the script. -/
def isQuote (c : Char) : Bool :=
  c = '"' || c.toNat = 39

/-- Python `str.strip()` restricted to ASCII whitespace. -/
def pyStrip (l : Cs) : Cs :=
  ((l.dropWhile isPySpace).reverse.dropWhile isPySpace).reverse

/-- Python `str.strip()` on strings. -/
def pyStripStr (s : String) : String :=
  (pyStrip s.toList).asString

/-- Python `str.upper()` restricted to ASCII. -/
def pyUpper (s : String) : String :=
  (s.toList.map Char.toUpper).asString

/-- Python `str.splitlines()` (covering the `\n`, `\r`, `\r\n` breaks the
auditor can meet): line pieces, with no trailing empty piece for a final
newline. -/
def splitLinesAux (acc : Cs) : Cs → List Cs
  | [] => if acc.isEmpty then [] else [acc.reverse]
  | '\r' :: '\n' :: rest => acc.reverse :: splitLinesAux [] rest
  | '\r' :: rest => acc.reverse :: splitLinesAux [] rest
  | '\n' :: rest => acc.reverse :: splitLinesAux [] rest
  | c :: rest => splitLinesAux (c :: acc) rest

/-- `content.splitlines()` as strings. -/
def splitLines (content : String) : List String :=
  (splitLinesAux [] content.toList).map List.asString

/-- Python's `str1 <= str2`: lexicographic comparison by code point. -/
def csLe : Cs → Cs → Bool
  | [], _ => true
  | _ :: _, [] => false
  | a :: as, b :: bs => if a = b then csLe as bs else decide (a.toNat < b.toNat)

/-- Python's `str1 <= str2` on strings. -/
def strLe (a b : String) : Bool :=
  csLe a.toList b.toList

/-- `mw.split('.')` helper: split a character list at a separator char. -/
def splitCharAux (sep : Char) (acc : Cs) : Cs → List Cs
  | [] => [acc.reverse]
  | c :: rest =>
    if c = sep then acc.reverse :: splitCharAux sep [] rest
    else splitCharAux sep (c :: acc) rest

/-- Python `s.split('.')[-1]`: the part after the last dot. -/
def lastDotComponent (s : String) : String :=
  ((splitCharAux '.' [] s.toList).getLastD []).asString

/-! ## Regular-expression machinery

Each regex of the script is compiled by hand to a matcher over `Cs`.
A matcher for a pattern prefix consumes input and returns the rest
(`Option Cs`), mirroring how the regex engine advances; `re.search` is
the attempt of the matcher at every start position, leftmost first. -/

/-- Match a literal, case sensitively; return the rest of the input. -/
def mLitAux : Cs → Cs → Option Cs
  | [], cs => some cs
  | _ :: _, [] => none
  | p :: ps, c :: cs => if c = p then mLitAux ps cs else none

/-- Match a literal under `re.IGNORECASE` (ASCII folding). -/
def mLitCIAux : Cs → Cs → Option Cs
  | [], cs => some cs
  | _ :: _, [] => none
  | p :: ps, c :: cs => if c.toLower = p.toLower then mLitCIAux ps cs else none

/-- Python's `sub in s` substring test: the literal occurs at some
position of the haystack. -/
def csContainsAux (pat : Cs) : Cs → Bool
  | [] => (mLitAux pat []).isSome
  | c :: rest => (mLitAux pat (c :: rest)).isSome || csContainsAux pat rest

/-- Python's `sub in s` substring test, on character lists. -/
def csContains (hay pat : Cs) : Bool :=
  csContainsAux pat hay

/-- Python's `sub in s` substring test, on strings. -/
def strContains (hay pat : String) : Bool :=
  csContains hay.toList pat.toList

/-- `\s*`: drop leading whitespace (always succeeds). -/
def mSpaces (cs : Cs) : Cs :=
  cs.dropWhile isPySpace

/-- `[_-]?` before a literal `key`: the greedy optional never conflicts
with the following `k`, so consuming the dash when present is faithful. -/
def mOptDash (cs : Cs) : Cs :=
  match cs with
  | c :: rest => if c = '_' || c = '-' then rest else cs
  | [] => cs

/-- `re.search` for a boolean matcher that needs the previous character
(for `\b` word boundaries): try every position, leftmost first. -/
def reSearchBoundAux (m : Option Char → Cs → Bool) : Option Char → Cs → Bool
  | prev, [] => m prev []
  | prev, c :: rest => m prev (c :: rest) || reSearchBoundAux m (some c) rest

/-- `re.search` for a boolean matcher with no word boundary. -/
def reSearchAux (m : Cs → Bool) : Cs → Bool
  | [] => m []
  | c :: rest => m (c :: rest) || reSearchAux m rest

/-- `re.search` returning the first (leftmost) capture of a capturing
matcher. -/
def reSearchCapAux (m : Cs → Option Cs) : Cs → Option Cs
  | [] => m []
  | c :: rest =>
    match m (c :: rest) with
    | some v => some v
    | none => reSearchCapAux m rest

/-- Word boundary before a word character: start of input or a non-word
previous character. -/
def atWordBoundary : Option Char → Bool
  | none => true
  | some c => !(isWordChar c)

/-- Drop input up to and past the first occurrence of a (nonempty)
literal; `none` when the literal does not occur. Implements the
`.*LIT` step of a regex existentially. -/
def dropThroughAux (pat : Cs) : Cs → Option Cs
  | [] => none
  | c :: rest =>
    match mLitAux pat (c :: rest) with
    | some r => some r
    | none => dropThroughAux pat rest

/-! ## Issue model (`Severity`, `SecurityIssue`) -/

/-- `class Severity(Enum)`: security issue severity levels, in the
declaration order of the source. -/
inductive Severity where
  | CRITICAL
  | HIGH
  | MEDIUM
  | LOW
  | INFO
deriving DecidableEq, Repr

/-- The `order` dict inside `Severity.__lt__`. -/
def sevOrder : Severity → Nat
  | .CRITICAL => 0
  | .HIGH => 1
  | .MEDIUM => 2
  | .LOW => 3
  | .INFO => 4

/-- `Severity.__lt__`: `order[self] < order[other]`. -/
def sevLt (a b : Severity) : Bool :=
  sevOrder a < sevOrder b

/-- `Severity.value`: the string token of each level. -/
def sevValue : Severity → String
  | .CRITICAL => "CRITICAL"
  | .HIGH => "HIGH"
  | .MEDIUM => "MEDIUM"
  | .LOW => "LOW"
  | .INFO => "INFO"

/-- Iteration order of `for severity in Severity` (enum declaration
order). -/
def severityList : List Severity :=
  [.CRITICAL, .HIGH, .MEDIUM, .LOW, .INFO]

/-- `@dataclass class SecurityIssue`: one issue found during the audit,
with the dataclass defaults. -/
structure SecurityIssue where
  severity : Severity
  category : String
  title : String
  description : String
  file_path : Option String := none
  line_number : Option Nat := none
  code_snippet : Option String := none
  recommendation : Option String := none
  cve : Option String := none
  auto_fixable : Bool := false
deriving DecidableEq, Repr

/-- The dictionary shape produced by `SecurityIssue.to_dict` for the
JSON report (`severity` serialized through `Severity.value`). -/
structure IssueDict where
  severity : String
  category : String
  title : String
  description : String
  file_path : Option String
  line_number : Option Nat
  code_snippet : Option String
  recommendation : Option String
  cve : Option String
  auto_fixable : Bool
deriving DecidableEq, Repr

/-- `SecurityIssue.to_dict`. -/
def toDict (i : SecurityIssue) : IssueDict :=
  { severity := sevValue i.severity
    category := i.category
    title := i.title
    description := i.description
    file_path := i.file_path
    line_number := i.line_number
    code_snippet := i.code_snippet
    recommendation := i.recommendation
    cve := i.cve
    auto_fixable := i.auto_fixable }

/-- `issue.severity in [Severity.CRITICAL, Severity.HIGH]`, the test of
`get_exit_code`. -/
def critHigh (i : SecurityIssue) : Bool :=
  i.severity = Severity.CRITICAL || i.severity = Severity.HIGH

/-- `SecurityAuditor.get_exit_code`: walk the issues, return 1 at the
first Critical/High one, else 0. -/
def getExitCode : List SecurityIssue → Nat
  | [] => 0
  | i :: rest => if critHigh i then 1 else getExitCode rest

/-! ## Settings scanner (`SecurityAuditor.scan_settings`) -/

/-- Match one given character. -/
def mCharLit (ch : Char) (cs : Cs) : Option Cs :=
  match cs with
  | c :: rest => if c = ch then some rest else none
  | [] => none

/-- The shared shape `NAME\s*=\s*["\']([^"\']+)["\']` of the secret
regexes: returns the capture group (the quoted value). The value class
`[^"\']+` cannot cross a quote, so greedy matching is deterministic. -/
def mAssignQuoted (name : Cs → Option Cs) (cs : Cs) : Option Cs := do
  let r1 ← name cs
  let r2 ← mCharLit '=' (mSpaces r1)
  match mSpaces r2 with
  | c :: r3 =>
    if isQuote c then
      let v := r3.takeWhile (fun d => !(isQuote d))
      let rest := r3.dropWhile (fun d => !(isQuote d))
      if v.isEmpty then none
      else
        match rest with
        | _ :: _ => some v
        | [] => none
    else none
  | [] => none

/-- `\bDEBUG\s*=\s*True\b` tried at one position. -/
def debugTrueAt (prev : Option Char) (cs : Cs) : Bool :=
  atWordBoundary prev &&
    (match mLitAux "DEBUG".toList cs with
     | none => false
     | some r1 =>
       match mCharLit '=' (mSpaces r1) with
       | none => false
       | some r2 =>
         match mLitAux "True".toList (mSpaces r2) with
         | none => false
         | some [] => true
         | some (c :: _) => !(isWordChar c))

/-- `re.search(r'\bDEBUG\s*=\s*True\b', content)`. -/
def debugTrueSearch (content : String) : Bool :=
  reSearchBoundAux debugTrueAt none content.toList

/-- `re.search(r'SECRET_KEY\s*=\s*["\'][^"\']+["\']', content)` (case
sensitive in `scan_settings`). -/
def secretKeySettingsSearch (content : String) : Bool :=
  (reSearchCapAux (mAssignQuoted (mLitAux "SECRET_KEY".toList)) content.toList).isSome

/-- `ALLOWED_HOSTS\s*=\s*\[\s*\*\s*\]` tried at one position. -/
def allowedHostsStarAt (cs : Cs) : Bool :=
  (do
    let r1 ← mLitAux "ALLOWED_HOSTS".toList cs
    let r2 ← mCharLit '=' (mSpaces r1)
    let r3 ← mCharLit '[' (mSpaces r2)
    let r4 ← mCharLit '*' (mSpaces r3)
    let _ ← mCharLit ']' (mSpaces r4)
    pure ()).isSome

/-- `ALLOWED_HOSTS\s*=\s*\[\s*["\']\\?\*["\']` tried at one position
(quote, optional backslash, star, quote). -/
def allowedHostsQuotedStarAt (cs : Cs) : Bool :=
  (do
    let r1 ← mLitAux "ALLOWED_HOSTS".toList cs
    let r2 ← mCharLit '=' (mSpaces r1)
    let r3 ← mCharLit '[' (mSpaces r2)
    match mSpaces r3 with
    | c :: r4 =>
      if isQuote c then
        let r5 := match r4 with
          | d :: rest => if d = '\\' then rest else r4
          | [] => r4
        let r6 ← mCharLit '*' r5
        match r6 with
        | e :: _ => if isQuote e then some () else none
        | [] => none
      else none
    | [] => none).isSome

/-- The `ALLOWED_HOSTS` wildcard check: either of the two regexes. -/
def allowedHostsWildcardSearch (content : String) : Bool :=
  reSearchAux allowedHostsStarAt content.toList ||
    reSearchAux allowedHostsQuotedStarAt content.toList

/-- `f'{setting}\s*=\s*False'` tried at one position. -/
def settingFalseAt (name : Cs) (cs : Cs) : Bool :=
  (do
    let r1 ← mLitAux name cs
    let r2 ← mCharLit '=' (mSpaces r1)
    let _ ← mLitAux "False".toList (mSpaces r2)
    pure ()).isSome

/-- `re.search(f'{setting}\s*=\s*False', content)`. -/
def settingFalseSearch (name : String) (content : String) : Bool :=
  reSearchAux (settingFalseAt name.toList) content.toList

/-- `CONTENT_SECURITY_POLICY_REPORT_ONLY\s*=\s*(True|False|DEBUG)` tried
at one position. -/
def cspAt (cs : Cs) : Bool :=
  (do
    let r1 ← mLitAux "CONTENT_SECURITY_POLICY_REPORT_ONLY".toList cs
    let r2 ← mCharLit '=' (mSpaces r1)
    let r3 := mSpaces r2
    match mLitAux "True".toList r3 with
    | some _ => some ()
    | none =>
      match mLitAux "False".toList r3 with
      | some _ => some ()
      | none => (mLitAux "DEBUG".toList r3).map (fun _ => ())).isSome

/-- `re.search` for the CSP report-only misconfiguration. -/
def cspSearch (content : String) : Bool :=
  reSearchAux cspAt content.toList

/-- The Critical "DEBUG enabled" finding of `scan_settings`. -/
def debugIssue (path : String) : SecurityIssue :=
  { severity := .CRITICAL
    category := "Settings"
    title := "DEBUG enabled"
    description := "DEBUG = True in settings - NEVER use in production"
    file_path := some path
    recommendation := some "Set DEBUG = False for production. Use environment variable: DEBUG = os.environ.get(\x27DEBUG\x27, \x27False\x27) == \x27True\x27"
    auto_fixable := true }

/-- The Critical "Hardcoded SECRET_KEY" finding of `scan_settings`. -/
def hardcodedSecretKeyIssue (path : String) : SecurityIssue :=
  { severity := .CRITICAL
    category := "Settings"
    title := "Hardcoded SECRET_KEY"
    description := "SECRET_KEY is hardcoded in settings"
    file_path := some path
    recommendation := some "Use environment variable: SECRET_KEY = os.environ[\x27DJANGO_SECRET_KEY\x27]"
    auto_fixable := false }

/-- The High "ALLOWED_HOSTS wildcard" finding of `scan_settings`. -/
def allowedHostsIssue (path : String) : SecurityIssue :=
  { severity := .HIGH
    category := "Settings"
    title := "ALLOWED_HOSTS wildcard"
    description := "ALLOWED_HOSTS = [\x27*\x27] allows any host header"
    file_path := some path
    recommendation := some "Set specific hosts: ALLOWED_HOSTS = [\x27yourdomain.com\x27, \x27www.yourdomain.com\x27]"
    auto_fixable := false }

/-- The `required_middleware` list of `scan_settings`. -/
def requiredMiddleware : List String :=
  ["django.middleware.security.SecurityMiddleware",
   "django.middleware.csrf.CsrfViewMiddleware",
   "django.middleware.clickjacking.XFrameOptionsMiddleware"]

/-- The per-middleware High finding for a missing entry. -/
def missingMwIssue (path mw : String) : SecurityIssue :=
  { severity := .HIGH
    category := "Settings"
    title := "Missing security middleware: " ++ lastDotComponent mw
    description := "Required security middleware not found: " ++ mw
    file_path := some path
    recommendation := some ("Add to MIDDLEWARE list: \x27" ++ mw ++ "\x27")
    auto_fixable := true }

/-- One entry of the `https_settings` dict: name, expected value and the
severity declared next to it (the source never reads this severity — it
hardcodes Medium for missing and High for disabled). -/
structure HttpsSetting where
  name : String
  expected : String
  declaredSeverity : Severity
deriving DecidableEq, Repr

/-- The `https_settings` dict of `scan_settings`, in insertion order. -/
def httpsSettingsList : List HttpsSetting :=
  [⟨"SECURE_SSL_REDIRECT", "True", .HIGH⟩,
   ⟨"SESSION_COOKIE_SECURE", "True", .HIGH⟩,
   ⟨"CSRF_COOKIE_SECURE", "True", .HIGH⟩,
   ⟨"SECURE_BROWSER_XSS_FILTER", "True", .MEDIUM⟩,
   ⟨"SECURE_CONTENT_TYPE_NOSNIFF", "True", .MEDIUM⟩]

/-- The Medium finding for an HTTPS setting absent from the file. -/
def missingSettingIssue (path : String) (s : HttpsSetting) : SecurityIssue :=
  { severity := .MEDIUM
    category := "Settings"
    title := "Missing security setting: " ++ s.name
    description := s.name ++ " not configured"
    file_path := some path
    recommendation := some ("Add " ++ s.name ++ " = " ++ s.expected)
    auto_fixable := true }

/-- The High finding for an HTTPS setting explicitly set to False. -/
def insecureSettingIssue (path : String) (s : HttpsSetting) : SecurityIssue :=
  { severity := .HIGH
    category := "Settings"
    title := "Insecure setting: " ++ s.name ++ " = False"
    description := s.name ++ " is disabled"
    file_path := some path
    recommendation := some ("Set " ++ s.name ++ " = True")
    auto_fixable := true }

/-- The Medium finding for missing `AUTH_PASSWORD_VALIDATORS`. -/
def pwdValidatorsIssue (path : String) : SecurityIssue :=
  { severity := .MEDIUM
    category := "Settings"
    title := "Missing password validators"
    description := "AUTH_PASSWORD_VALIDATORS not configured"
    file_path := some path
    recommendation := some "Configure Django password validators"
    auto_fixable := true }

/-- The High finding for the CSP report-only misconfiguration. -/
def cspIssue (path : String) : SecurityIssue :=
  { severity := .HIGH
    category := "Settings"
    title := "CSP report-only mode misconfigured"
    description := "CONTENT_SECURITY_POLICY_REPORT_ONLY set to boolean (causes AttributeError in django-csp 4.0+)"
    file_path := some path
    recommendation := some "Remove line or set to dict: CONTENT_SECURITY_POLICY_REPORT_ONLY = \x7b\x27DIRECTIVES\x27: \x7b...\x7d\x7d"
    auto_fixable := false }

/-- `SecurityAuditor.scan_settings` applied to the content of a found,
readable settings file: the issues appended, in the source's rule
order. -/
def scanSettingsContent (path content : String) : List SecurityIssue :=
  (if debugTrueSearch content then [debugIssue path] else [])
    ++ (if secretKeySettingsSearch content && !(strContains content "os.environ")
          && !(strContains content "env(")
        then [hardcodedSecretKeyIssue path] else [])
    ++ (if allowedHostsWildcardSearch content then [allowedHostsIssue path] else [])
    ++ requiredMiddleware.flatMap (fun mw =>
        if strContains content mw then [] else [missingMwIssue path mw])
    ++ httpsSettingsList.flatMap (fun s =>
        if !(strContains content s.name) then [missingSettingIssue path s]
        else if settingFalseSearch s.name content then [insecureSettingIssue path s]
        else [])
    ++ (if strContains content "AUTH_PASSWORD_VALIDATORS" then [] else [pwdValidatorsIssue path])
    ++ (if cspSearch content then [cspIssue path] else [])

/-! ## Code vulnerability scanner
(`SecurityAuditor._scan_file_for_vulnerabilities`) -/

/-- `enumerate(lines, 1)` over `content.splitlines()`. -/
def linesOf (content : String) : List (Nat × String) :=
  (splitLines content).enumFrom 1

/-- The sub-pattern `.*%s.*%.*["\']`: somewhere a `%s`, later a `%`,
later a quote (greedy `.*` with backtracking is this existential). -/
def sqlTailMatch (cs : Cs) : Bool :=
  match dropThroughAux "%s".toList cs with
  | none => false
  | some r1 =>
    match dropThroughAux ['%'] r1 with
    | none => false
    | some r2 => r2.any isQuote

/-- The sub-pattern `[^)]*["\']` followed by `tail`: scan non-`)` chars
and try `tail` after each quote; on failure the quote is absorbed by
`[^)]*` and scanning continues (regex backtracking). -/
def rawArgThen (tail : Cs → Bool) : Cs → Bool
  | [] => false
  | c :: rest =>
    if c = ')' then false
    else (isQuote c && tail rest) || rawArgThen tail rest

/-- `\.raw\([^)]*["\'].*%s.*%.*["\']` (or the `.execute` variant) tried
at one position, given the literal callee prefix. -/
def sqlFmtAfter (callee : String) (cs : Cs) : Bool :=
  match mLitAux callee.toList cs with
  | some r => rawArgThen sqlTailMatch r
  | none => false

/-- The sub-pattern `[^)]*f["\']`: scan non-`)` chars for an `f`
immediately followed by a quote. -/
def fQuoteScan : Cs → Bool
  | [] => false
  | c :: rest =>
    if c = ')' then false
    else
      (c = 'f' && (match rest with
        | d :: _ => isQuote d
        | [] => false)) || fQuoteScan rest

/-- `\.raw\([^)]*f["\']` (or the `.execute` variant) tried at one
position. -/
def sqlFstrAfter (callee : String) (cs : Cs) : Bool :=
  match mLitAux callee.toList cs with
  | some r => fQuoteScan r
  | none => false

/-- `re.search(r'\.raw\([^)]*["\'].*%s.*%.*["\']', line)`. -/
def sqlRawFmtSearch (line : String) : Bool :=
  reSearchAux (sqlFmtAfter ".raw(") line.toList

/-- `re.search(r'\.raw\([^)]*f["\']', line)`. -/
def sqlRawFstrSearch (line : String) : Bool :=
  reSearchAux (sqlFstrAfter ".raw(") line.toList

/-- `re.search(r'\.execute\([^)]*["\'].*%s.*%.*["\']', line)`. -/
def sqlExecFmtSearch (line : String) : Bool :=
  reSearchAux (sqlFmtAfter ".execute(") line.toList

/-- `re.search(r'\.execute\([^)]*f["\']', line)`. -/
def sqlExecFstrSearch (line : String) : Bool :=
  reSearchAux (sqlFstrAfter ".execute(") line.toList

/-- The `sql_injection_patterns` table. -/
def sqlPatterns : List ((String → Bool) × String) :=
  [(sqlRawFmtSearch, "String formatting in raw SQL"),
   (sqlRawFstrSearch, "F-string in raw SQL"),
   (sqlExecFmtSearch, "String formatting in execute"),
   (sqlExecFstrSearch, "F-string in execute")]

/-- One SQL-injection finding (snippet is `line.strip()`, untruncated). -/
def mkSqlIssue (path : String) (i : Nat) (line desc : String) : SecurityIssue :=
  { severity := .CRITICAL
    category := "SQL Injection"
    title := "Potential SQL injection: " ++ desc
    description := "SQL query with string formatting detected"
    file_path := some path
    line_number := some i
    code_snippet := some (pyStripStr line)
    recommendation := some "Use parameterized queries: .raw(\x27SELECT * FROM table WHERE id = %s\x27, [value])"
    auto_fixable := false }

/-- The SQL section: pattern-major, then line-major, as in the source. -/
def sqlFindings (path : String) (lines : List (Nat × String)) : List SecurityIssue :=
  sqlPatterns.flatMap fun pd =>
    lines.filterMap fun il =>
      if pd.1 il.2 then some (mkSqlIssue path il.1 il.2 pd.2) else none

/-- `\|\s*safe` tried at one position. -/
def pipeSafeAt (cs : Cs) : Bool :=
  (do
    let r1 ← mCharLit '|' cs
    let _ ← mLitAux "safe".toList (mSpaces r1)
    pure ()).isSome

/-- `re.search(r'mark_safe\(', line)` (a literal). -/
def markSafeSearch (line : String) : Bool :=
  strContains line "mark_safe("

/-- `re.search(r'\|\s*safe', line)`. -/
def pipeSafeSearch (line : String) : Bool :=
  reSearchAux pipeSafeAt line.toList

/-- `re.search(r'safestring\.SafeString', line)` (a literal). -/
def safeStringSearch (line : String) : Bool :=
  strContains line "safestring.SafeString"

/-- The `xss_patterns` table. -/
def xssPatterns : List ((String → Bool) × String) :=
  [(markSafeSearch, "mark_safe usage"),
   (pipeSafeSearch, "|safe filter"),
   (safeStringSearch, "SafeString usage")]

/-- One XSS finding (snippet is `line.strip()`, untruncated). -/
def mkXssIssue (path : String) (i : Nat) (line desc : String) : SecurityIssue :=
  { severity := .HIGH
    category := "XSS"
    title := "Potential XSS: " ++ desc
    description := "Unsafe HTML rendering detected"
    file_path := some path
    line_number := some i
    code_snippet := some (pyStripStr line)
    recommendation := some "Only use mark_safe with trusted, sanitized content. Consider using django.utils.html.escape()"
    auto_fixable := false }

/-- The XSS section. -/
def xssFindings (path : String) (lines : List (Nat × String)) : List SecurityIssue :=
  xssPatterns.flatMap fun pd =>
    lines.filterMap fun il =>
      if pd.1 il.2 then some (mkXssIssue path il.1 il.2 pd.2) else none

/-- `re.search(p, line, re.IGNORECASE)` capture for
`SECRET_KEY\s*=\s*["\']([^"\']+)["\']`. -/
def secretKeyCap (line : String) : Option String :=
  (reSearchCapAux (mAssignQuoted (mLitCIAux "SECRET_KEY".toList)) line.toList).map List.asString

/-- Capture for `AWS_SECRET_ACCESS_KEY\s*=\s*["\']([^"\']+)["\']`
(ignore-case). -/
def awsSecretCap (line : String) : Option String :=
  (reSearchCapAux (mAssignQuoted (mLitCIAux "AWS_SECRET_ACCESS_KEY".toList)) line.toList).map List.asString

/-- The name part `api[_-]?key` (ignore-case). -/
def apiKeyName (cs : Cs) : Option Cs := do
  let r ← mLitCIAux "api".toList cs
  mLitCIAux "key".toList (mOptDash r)

/-- Capture for `api[_-]?key\s*=\s*["\']([^"\']+)["\']` (ignore-case). -/
def apiKeyCap (line : String) : Option String :=
  (reSearchCapAux (mAssignQuoted apiKeyName) line.toList).map List.asString

/-- Capture for `password\s*=\s*["\']([^"\']+)["\']` (ignore-case). -/
def passwordCap (line : String) : Option String :=
  (reSearchCapAux (mAssignQuoted (mLitCIAux "password".toList)) line.toList).map List.asString

/-- The name part `(?:auth|token)[_-]?key` (ignore-case, `auth` branch
first). -/
def authTokenName (cs : Cs) : Option Cs :=
  match mLitCIAux "auth".toList cs with
  | some r => mLitCIAux "key".toList (mOptDash r)
  | none => do
    let r ← mLitCIAux "token".toList cs
    mLitCIAux "key".toList (mOptDash r)

/-- Capture for `(?:auth|token)[_-]?key\s*=\s*["\']([^"\']+)["\']`
(ignore-case). -/
def authTokenCap (line : String) : Option String :=
  (reSearchCapAux (mAssignQuoted authTokenName) line.toList).map List.asString

/-- The `self.secret_patterns` table of `__init__`. -/
def secretPatternsList : List ((String → Option String) × String) :=
  [(secretKeyCap, "SECRET_KEY"),
   (awsSecretCap, "AWS Secret"),
   (apiKeyCap, "API Key"),
   (passwordCap, "Password"),
   (authTokenCap, "Auth Token")]

/-- The placeholder values excluded from secret findings. -/
def placeholderValues : List String :=
  ["your-secret-key", "changeme", "dummy"]

/-- One hardcoded-secret finding (the only snippet the script truncates:
`line.strip()[:100]`). -/
def mkSecretIssue (path : String) (i : Nat) (line stype : String) : SecurityIssue :=
  { severity := .CRITICAL
    category := "Secrets"
    title := "Hardcoded " ++ stype
    description := "Hardcoded " ++ stype ++ " found in code"
    file_path := some path
    line_number := some i
    code_snippet := some ((pyStrip line.toList).take 100).asString
    recommendation := some ("Use environment variables: " ++ pyUpper stype
      ++ " = os.environ[\x27" ++ pyUpper stype ++ "\x27]")
    auto_fixable := false }

/-- The hardcoded-secrets section: a pattern fires when it matches, the
line has no `os.environ` or `env(`, the captured value is longer than 10
characters and is not a placeholder. -/
def secretsFindings (path : String) (lines : List (Nat × String)) : List SecurityIssue :=
  secretPatternsList.flatMap fun pm =>
    lines.filterMap fun il =>
      match pm.1 il.2 with
      | some v =>
        if !(strContains il.2 "os.environ") && !(strContains il.2 "env(")
            && decide (10 < v.length) && !(placeholderValues.contains v)
        then some (mkSecretIssue path il.1 il.2 pm.2) else none
      | none => none

/-- `\beval\(` tried at one position. -/
def evalAt (prev : Option Char) (cs : Cs) : Bool :=
  atWordBoundary prev && (mLitAux "eval(".toList cs).isSome

/-- `re.search(r'\beval\(', line)`. -/
def evalSearch (line : String) : Bool :=
  reSearchBoundAux evalAt none line.toList

/-- `\bexec\(` tried at one position. -/
def execAt (prev : Option Char) (cs : Cs) : Bool :=
  atWordBoundary prev && (mLitAux "exec(".toList cs).isSome

/-- `re.search(r'\bexec\(', line)`. -/
def execSearch (line : String) : Bool :=
  reSearchBoundAux execAt none line.toList

/-- `pickle\.loads?\(` tried at one position (optional `s`). -/
def pickleAt (cs : Cs) : Bool :=
  match mLitAux "pickle.load".toList cs with
  | some ('s' :: '(' :: _) => true
  | some ('(' :: _) => true
  | _ => false

/-- `re.search(r'pickle\.loads?\(', line)`. -/
def pickleSearch (line : String) : Bool :=
  reSearchAux pickleAt line.toList

/-- `shell\s*=\s*True` tried at one position. -/
def shellTrueAt (cs : Cs) : Bool :=
  (do
    let r1 ← mLitAux "shell".toList cs
    let r2 ← mCharLit '=' (mSpaces r1)
    let _ ← mLitAux "True".toList (mSpaces r2)
    pure ()).isSome

/-- The sub-pattern `[^(]*\(` followed by `.*shell\s*=\s*True`: skip to
the first `(` after `subprocess.`, then search the rest. -/
def parenScanShell : Cs → Bool
  | [] => false
  | c :: rest => if c = '(' then reSearchAux shellTrueAt rest else parenScanShell rest

/-- `subprocess\.[^(]*\(.*shell\s*=\s*True` tried at one position. -/
def subprocShellAt (cs : Cs) : Bool :=
  match mLitAux "subprocess.".toList cs with
  | some r => parenScanShell r
  | none => false

/-- `re.search(r'subprocess\.[^(]*\(.*shell\s*=\s*True', line)`. -/
def subprocShellSearch (line : String) : Bool :=
  reSearchAux subprocShellAt line.toList

/-- `re.search(r'os\.system\(', line)` (a literal). -/
def osSystemSearch (line : String) : Bool :=
  strContains line "os.system("

/-- The `dangerous_patterns` table with its per-pattern severities. -/
def dangerousPatterns : List ((String → Bool) × String × Severity) :=
  [(evalSearch, "eval() usage", .CRITICAL),
   (execSearch, "exec() usage", .CRITICAL),
   (pickleSearch, "pickle deserialization", .HIGH),
   (subprocShellSearch, "shell=True in subprocess", .HIGH),
   (osSystemSearch, "os.system() usage", .HIGH)]

/-- One dangerous-function finding (snippet untruncated). -/
def mkDangerousIssue (path : String) (i : Nat) (line desc : String)
    (sev : Severity) : SecurityIssue :=
  { severity := sev
    category := "Dangerous Functions"
    title := "Dangerous function: " ++ desc
    description := desc ++ " can lead to code execution"
    file_path := some path
    line_number := some i
    code_snippet := some (pyStripStr line)
    recommendation := some ("Avoid " ++ desc ++ ". Use safer alternatives.")
    auto_fixable := false }

/-- The dangerous-functions section. -/
def dangerousFindings (path : String) (lines : List (Nat × String)) : List SecurityIssue :=
  dangerousPatterns.flatMap fun pd =>
    lines.filterMap fun il =>
      if pd.1 il.2 then some (mkDangerousIssue path il.1 il.2 pd.2.1 pd.2.2) else none

/-- `re.search(pat, line, re.IGNORECASE)` for a literal pattern. -/
def containsCI (hay pat : String) : Bool :=
  reSearchAux (fun cs => (mLitCIAux pat.toList cs).isSome) hay.toList

/-- The sub-pattern `[^)]*LIT`: scan non-`)` characters for the literal. -/
def nonParenThen (tail : Cs → Bool) : Cs → Bool
  | [] => false
  | c :: rest =>
    if c = ')' then false else tail (c :: rest) || nonParenThen tail rest

/-- `CALLEE\([^)]*user` tried at one position (ignore-case). -/
def callUserAt (callee : String) (cs : Cs) : Bool :=
  match mLitCIAux callee.toList cs with
  | some r => nonParenThen (fun cs2 => (mLitCIAux "user".toList cs2).isSome) r
  | none => false

/-- `r'open\([^)]*user|request'` (the alternation makes any line
containing `request` match), ignore-case. -/
def pathOpenSearch (line : String) : Bool :=
  reSearchAux (callUserAt "open(") line.toList || containsCI line "request"

/-- `r'Path\([^)]*user|request'`, ignore-case. -/
def pathPathSearch (line : String) : Bool :=
  reSearchAux (callUserAt "Path(") line.toList || containsCI line "request"

/-- `r'os\.path\.join\([^)]*user|request'`, ignore-case. -/
def pathJoinSearch (line : String) : Bool :=
  reSearchAux (callUserAt "os.path.join(") line.toList || containsCI line "request"

/-- The `path_traversal_patterns` table. -/
def pathTraversalPatterns : List (String → Bool) :=
  [pathOpenSearch, pathPathSearch, pathJoinSearch]

/-- One path-traversal finding (snippet untruncated). -/
def mkPathIssue (path : String) (i : Nat) (line : String) : SecurityIssue :=
  { severity := .HIGH
    category := "Path Traversal"
    title := "Potential path traversal"
    description := "File path constructed with user input"
    file_path := some path
    line_number := some i
    code_snippet := some (pyStripStr line)
    recommendation := some "Validate and sanitize file paths. Use django.core.files.storage for uploads."
    auto_fixable := false }

/-- The path-traversal section. -/
def pathFindings (path : String) (lines : List (Nat × String)) : List SecurityIssue :=
  pathTraversalPatterns.flatMap fun p =>
    lines.filterMap fun il =>
      if p il.2 then some (mkPathIssue path il.1 il.2) else none

/-- `SecurityAuditor._scan_file_for_vulnerabilities`: the five sections
in source order. -/
def scanFileForVulnerabilities (path content : String) : List SecurityIssue :=
  let lines := linesOf content
  sqlFindings path lines ++ xssFindings path lines ++ secretsFindings path lines
    ++ dangerousFindings path lines ++ pathFindings path lines

/-! ## File tree model and the directory walkers
(`scan_code`, `scan_multi_tenant`) -/

/-- The content of one file of the scanned tree: readable with a given
text, or unreadable (the `except Exception` branch of the walkers, whose
exception text is the message printed). -/
inductive PyContent where
  | ok (content : String)
  | unreadable (errMsg : String)
deriving DecidableEq, Repr

/-- One `*.py` file met by `rglob`, in traversal order. -/
structure PyFile where
  path : String
  content : PyContent
deriving DecidableEq, Repr

/-- The skip test of both walkers:
`'venv' in str(file_path) or 'migrations' in str(file_path)`. -/
def skipFile (f : PyFile) : Bool :=
  strContains f.path "venv" || strContains f.path "migrations"

/-- Issues contributed by one file in `scan_code`: none when skipped or
unreadable. -/
def scanCodeFileIssues (f : PyFile) : List SecurityIssue :=
  if skipFile f then []
  else
    match f.content with
    | .ok c => scanFileForVulnerabilities f.path c
    | .unreadable _ => []

/-- `SecurityAuditor.scan_code` over the traversal order of `rglob`. -/
def scanCodeIssues (files : List PyFile) : List SecurityIssue :=
  files.flatMap scanCodeFileIssues

/-! ## Multi-tenant scanner (`_scan_file_for_multi_tenant_issues`) -/

/-- `\.objects\.get\([^)]*\)` tried at one position: the literal call
prefix and then a closing parenthesis later in the line. -/
def objectsGetAt (cs : Cs) : Bool :=
  match mLitAux ".objects.get(".toList cs with
  | some r => r.any (fun c => c = ')')
  | none => false

/-- `re.search(r'\.objects\.get\([^)]*\)', line)`. -/
def objectsGetSearch (line : String) : Bool :=
  reSearchAux objectsGetAt line.toList

/-- The Medium unfiltered-`.all()` finding. -/
def mkTenantAllIssue (path : String) (i : Nat) (line : String) : SecurityIssue :=
  { severity := .MEDIUM
    category := "Multi-Tenant"
    title := "Unfiltered query - potential tenant leak"
    description := ".all() query without tenant filter"
    file_path := some path
    line_number := some i
    code_snippet := some (pyStripStr line)
    recommendation := some "Ensure query filters by tenant: .filter(tenant=request.tenant)"
    auto_fixable := false }

/-- The Medium `.get()`-without-tenant finding. -/
def mkTenantGetIssue (path : String) (i : Nat) (line : String) : SecurityIssue :=
  { severity := .MEDIUM
    category := "Multi-Tenant"
    title := "Query without tenant filter"
    description := ".get() query may not filter by tenant"
    file_path := some path
    line_number := some i
    code_snippet := some (pyStripStr line)
    recommendation := some "Include tenant in query: .get(pk=pk, tenant=request.tenant)"
    auto_fixable := false }

/-- Both tenant checks applied to one numbered line, in source order.
(`readlines` keeps the trailing newline that `splitlines` drops; no
check of this scanner can tell the two apart.) -/
def tenantLineFindings (path : String) (il : Nat × String) : List SecurityIssue :=
  (if strContains il.2 ".objects.all()" && !(strContains il.2 "unfiltered")
      && !(strContains path "admin.py")
   then [mkTenantAllIssue path il.1 il.2] else [])
    ++ (if objectsGetSearch il.2 && !(strContains il.2 "tenant")
          && !(strContains path "admin.py")
        then [mkTenantGetIssue path il.1 il.2] else [])

/-- `_scan_file_for_multi_tenant_issues` over one file's content. -/
def scanFileForMultiTenant (path content : String) : List SecurityIssue :=
  (linesOf content).flatMap (tenantLineFindings path)

/-- Issues contributed by one file in `scan_multi_tenant`. -/
def scanMultiTenantFileIssues (f : PyFile) : List SecurityIssue :=
  if skipFile f then []
  else
    match f.content with
    | .ok c => scanFileForMultiTenant f.path c
    | .unreadable _ => []

/-- `SecurityAuditor.scan_multi_tenant` over the traversal order. -/
def scanMultiTenantIssues (files : List PyFile) : List SecurityIssue :=
  files.flatMap scanMultiTenantFileIssues

/-! ## Dependency scanner (`scan_dependencies`) -/

/-- One entry of pip-audit's parsed `dependencies` array. The source
reads `fix_versions` with default `['latest']` and the first vuln id
with default `None`. -/
structure PipVuln where
  name : String
  version : String
  fix_versions : List String
  vulnIds : List (Option String)
deriving DecidableEq, Repr

/-- pip-audit's stdout: JSON that parses, or not
(`json.JSONDecodeError` is swallowed by `pass`). -/
inductive PipAuditOut where
  | unparsable
  | parsed (deps : List PipVuln)
deriving DecidableEq, Repr

/-- How invoking pip-audit went: binary missing (`FileNotFoundError`),
ran with a returncode and stdout, or raised some other exception
(timeout included). -/
inductive PipStatus where
  | notFound
  | ran (returncode : Int) (output : PipAuditOut)
  | failed (errMsg : String)
deriving DecidableEq, Repr

/-- One entry of safety's parsed JSON (`vuln[0]`, `vuln[1]` when
present, `vuln[2]`). -/
structure SafetyVuln where
  pkg : String
  cve : Option String
  desc : String
deriving DecidableEq, Repr

/-- safety's stdout: empty (skipped by `if result.stdout:`), JSON that
fails to parse (the raised error's text), or parsed entries. -/
inductive SafetyOut where
  | emptyOut
  | unparsable (errMsg : String)
  | parsed (vulns : List SafetyVuln)
deriving DecidableEq, Repr

/-- How invoking safety went. -/
inductive SafetyStatus where
  | notFound
  | ran (output : SafetyOut)
  | failed (errMsg : String)
deriving DecidableEq, Repr

/-- The High finding for one pip-audit vulnerability. -/
def mkPipIssue (v : PipVuln) : SecurityIssue :=
  { severity := .HIGH
    category := "Dependencies"
    title := "Vulnerable package: " ++ v.name
    description := "Version " ++ v.version ++ " has known vulnerabilities"
    recommendation := some ("Update to version " ++ v.fix_versions.headD "latest")
    cve := v.vulnIds.headD none
    auto_fixable := false }

/-- The High finding for one safety vulnerability. -/
def mkSafetyIssue (v : SafetyVuln) : SecurityIssue :=
  { severity := .HIGH
    category := "Dependencies"
    title := "Vulnerable package: " ++ v.pkg
    description := v.desc
    recommendation := some "Update to safe version"
    cve := v.cve
    auto_fixable := false }

/-- The single Info finding emitted when neither pip-audit nor safety
can be invoked. -/
def depsInfoIssue : SecurityIssue :=
  { severity := .INFO
    category := "Dependencies"
    title := "No dependency scanner available"
    description := "Install pip-audit or safety to scan dependencies"
    recommendation := some "pip install pip-audit"
    auto_fixable := false }

/-- Issues of `scan_dependencies`, given whether a requirements file was
found and how the two tool invocations went. pip-audit results are used
only on returncode 0; safety is tried only when pip-audit's binary is
missing. -/
def scanDependenciesIssues :
    Option String → PipStatus → SafetyStatus → List SecurityIssue
  | none, _, _ => []
  | some _, .ran rc out, _ =>
    if rc = 0 then
      match out with
      | .parsed deps => deps.map mkPipIssue
      | .unparsable => []
    else []
  | some _, .failed _, _ => []
  | some _, .notFound, .ran out =>
    match out with
    | .emptyOut => []
    | .parsed vulns => vulns.map mkSafetyIssue
    | .unparsable _ => []
  | some _, .notFound, .notFound => [depsInfoIssue]
  | some _, .notFound, .failed _ => []

/-! ## Report engine (`generate_report` and friends) -/

/-- The JSON report shape of `_generate_json_report`
(`json.dumps` of this document is the printed string). -/
structure JsonReport where
  total_issues : Nat
  by_severity : List (String × Nat)
  issues : List IssueDict
deriving DecidableEq, Repr

/-- `_generate_json_report`: total, per-severity counts in enum order,
and the issues in collection order — no sort is applied. -/
def generateJsonReport (issues : List SecurityIssue) : JsonReport :=
  { total_issues := issues.length
    by_severity := severityList.map fun s =>
      (sevValue s, (issues.filter (fun i => i.severity = s)).length)
    issues := issues.map toDict }

/-- The rendered report, at document granularity: the JSON document, or
the text/HTML renderings, which are functions of the issue list only
(their string layout carries no further information used by any claim). -/
inductive ReportDoc where
  | jsonDoc (rep : JsonReport)
  | textDoc (issues : List SecurityIssue)
  | htmlDoc (issues : List SecurityIssue)
deriving DecidableEq, Repr

/-- The `--format` choice. -/
inductive OutFormat where
  | text
  | json
  | html
deriving DecidableEq, Repr

/-- `generate_report`. -/
def generateReport (fmt : OutFormat) (issues : List SecurityIssue) : ReportDoc :=
  match fmt with
  | .json => .jsonDoc (generateJsonReport issues)
  | .html => .htmlDoc issues
  | .text => .textDoc issues

/-! ## Driver (`main`) -/

/-- The two standard streams. -/
inductive StdStream where
  | out
  | err
deriving DecidableEq, Repr

/-- Observable actions of one run: a printed message, the printed
report, or a file-system write (no code path of the script performs
one — the constructor exists so the frame property is statable). -/
inductive Event where
  | msg (stream : StdStream) (text : String)
  | reportPrinted (stream : StdStream) (doc : ReportDoc)
  | fsWrite (path text : String)
deriving DecidableEq, Repr

/-- An event that is not a file-system write. -/
def eventNotWrite : Event → Bool
  | .fsWrite _ _ => false
  | _ => true

/-- An event that is a plain (diagnostic) message on stdout. -/
def isStdoutMsg : Event → Bool
  | .msg .out _ => true
  | _ => false

/-- Diagnostic prints of one file in `scan_code`/`scan_multi_tenant`
(both print `Error scanning {path}: {e}` to stdout). -/
def scanCodeFileEvents (f : PyFile) : List Event :=
  if skipFile f then []
  else
    match f.content with
    | .ok _ => []
    | .unreadable e => [.msg .out ("Error scanning " ++ f.path ++ ": " ++ e)]

/-- Diagnostic prints of `scan_code`. -/
def scanCodeEvents (files : List PyFile) : List Event :=
  files.flatMap scanCodeFileEvents

/-- Diagnostic prints of `scan_multi_tenant` (same text and stream as
`scan_code`). -/
def scanMultiTenantEvents (files : List PyFile) : List Event :=
  files.flatMap scanCodeFileEvents

/-- Diagnostic prints of `scan_dependencies` — all through bare
`print(...)`, hence to stdout. -/
def scanDependenciesEvents :
    Option String → PipStatus → SafetyStatus → List Event
  | none, _, _ => [.msg .out "ℹ️  No requirements.txt or pyproject.toml found"]
  | some _, .ran _ _, _ => []
  | some _, .failed e, _ => [.msg .out ("⚠️  Error scanning dependencies: " ++ e)]
  | some _, .notFound, .ran out =>
    match out with
    | .unparsable e => [.msg .out ("⚠️  Error running safety: " ++ e)]
    | _ => []
  | some _, .notFound, .notFound => []
  | some _, .notFound, .failed e => [.msg .out ("⚠️  Error running safety: " ++ e)]

/-- The `--scan` choice. -/
inductive ScanSel where
  | settings
  | code
  | dependencies
  | multiTenant
  | all
deriving DecidableEq, Repr

/-- The `--fail-on` choice. -/
inductive FailOn where
  | critical
  | high
  | medium
  | low
deriving DecidableEq, Repr

/-- The `fail_severity` lookup dict of `main`. -/
def failOnSeverity : FailOn → Severity
  | .critical => .CRITICAL
  | .high => .HIGH
  | .medium => .MEDIUM
  | .low => .LOW

/-- The exit-code computation at the end of `main`: with `--fail-on`,
exit 1 when some issue satisfies
`issue.severity.value <= fail_severity.value` — a lexicographic
comparison of the severity token strings — otherwise fall through to
`get_exit_code` (also without `--fail-on`). -/
def mainExitCode (issues : List SecurityIssue) (failOn : Option FailOn) : Nat :=
  match failOn with
  | some f =>
    if issues.any (fun i => strLe (sevValue i.severity) (sevValue (failOnSeverity f)))
    then 1
    else getExitCode issues
  | none => getExitCode issues

/-- What one invocation can observe of the project tree and of the
external dependency tools. -/
structure AuditEnv where
  settingsFile : Option (String × String)
  pyFiles : List PyFile
  reqFile : Option String
  pipAudit : PipStatus
  safety : SafetyStatus
deriving DecidableEq, Repr

/-- The `log` helper of `main`: diagnostics go to stderr for the
structured formats, to stdout otherwise. -/
def logStream (fmt : OutFormat) : StdStream :=
  if fmt = .json || fmt = .html then .err else .out

/-- `args.scan in [target, 'all']`. -/
def selRuns (sel target : ScanSel) : Bool :=
  sel = target || sel = .all

/-- Diagnostic prints of `scan_settings` (bare `print`, hence stdout,
when no settings file is found). -/
def settingsScanEvents (env : AuditEnv) : List Event :=
  match env.settingsFile with
  | none => [.msg .out "❌ Could not find settings.py"]
  | some _ => []

/-- Issues of `scan_settings` under the driver. -/
def settingsScanIssues (env : AuditEnv) : List SecurityIssue :=
  match env.settingsFile with
  | none => []
  | some pc => scanSettingsContent pc.1 pc.2

/-- Everything one invocation produces. -/
structure AuditResult where
  events : List Event
  issues : List SecurityIssue
  report : ReportDoc
  exitCode : Nat
deriving DecidableEq, Repr

/-- `main`: select scanners, collect issues in order, render the report
(always printed to stdout), compute the exit code. The auto-fix flags
are combined as in the source (`args.auto_fix and not args.report_only`)
and then never read. -/
def runAudit (env : AuditEnv) (sel : ScanSel) (fmt : OutFormat)
    (failOn : Option FailOn) (autoFixArg reportOnly : Bool) : AuditResult :=
  let _autoFix := autoFixArg && !reportOnly
  let ev1 := if selRuns sel .settings then
    Event.msg (logStream fmt) "🔍 Scanning Django settings..." :: settingsScanEvents env
    else []
  let is1 := if selRuns sel .settings then settingsScanIssues env else []
  let ev2 := if selRuns sel .code then
    Event.msg (logStream fmt) "🔍 Scanning code for vulnerabilities..." :: scanCodeEvents env.pyFiles
    else []
  let is2 := if selRuns sel .code then scanCodeIssues env.pyFiles else []
  let ev3 := if selRuns sel .dependencies then
    Event.msg (logStream fmt) "🔍 Checking dependencies..."
      :: scanDependenciesEvents env.reqFile env.pipAudit env.safety
    else []
  let is3 := if selRuns sel .dependencies then
    scanDependenciesIssues env.reqFile env.pipAudit env.safety else []
  let ev4 := if selRuns sel .multiTenant then
    Event.msg (logStream fmt) "🔍 Checking multi-tenant security..."
      :: scanMultiTenantEvents env.pyFiles
    else []
  let is4 := if selRuns sel .multiTenant then scanMultiTenantIssues env.pyFiles else []
  let issues := is1 ++ is2 ++ is3 ++ is4
  let rep := generateReport fmt issues
  { events := ev1 ++ ev2 ++ ev3 ++ ev4 ++ [Event.reportPrinted .out rep]
    issues := issues
    report := rep
    exitCode := mainExitCode issues failOn }

/-! ## Derived notions and concrete instances used by the claims -/

/-- `a` is strictly more severe than `b` in the
Critical > High > Medium > Low > Info ranking. -/
def moreSevere (a b : Severity) : Prop :=
  sevOrder a < sevOrder b

instance (a b : Severity) : Decidable (moreSevere a b) :=
  inferInstanceAs (Decidable (sevOrder a < sevOrder b))

/-- The ordering `sorted(issues)` uses through `Severity.__lt__`, as the
non-strict relation of a stable sort. -/
def issueLe (x y : SecurityIssue) : Prop :=
  sevOrder x.severity ≤ sevOrder y.severity

instance : DecidableRel issueLe :=
  fun x y => inferInstanceAs (Decidable (sevOrder x.severity ≤ sevOrder y.severity))

instance : IsTotal SecurityIssue issueLe :=
  ⟨fun x y => Nat.le_total (sevOrder x.severity) (sevOrder y.severity)⟩

instance : IsTrans SecurityIssue issueLe :=
  ⟨fun _ _ _ h1 h2 => Nat.le_trans h1 h2⟩

/-- A stable sort of findings by severity (Critical first), the sort the
spec's Report Engine describes. -/
def sortIssues (l : List SecurityIssue) : List SecurityIssue :=
  List.insertionSort issueLe l

/-- A finding that is about the DEBUG flag (mentions it in its title or
description). -/
def aboutDebug (f : SecurityIssue) : Bool :=
  strContains f.title "DEBUG" || strContains f.description "DEBUG"

/-- A finding of the Secrets category. -/
def isSecretsIssue (f : SecurityIssue) : Bool :=
  f.category = "Secrets"

/-- A 116-character line calling `eval`, for the snippet-bound claim. -/
def longEvalLine : String :=
  "eval(" ++ (List.replicate 110 'a').asString ++ ")"

/-- A project tree with no `settings.py` and nothing else. -/
def envNoSettings : AuditEnv :=
  { settingsFile := none
    pyFiles := []
    reqFile := none
    pipAudit := .notFound
    safety := .notFound }

/-- A file whose single line triggers one Critical `eval` finding. -/
def fileA : PyFile := ⟨"a.py", .ok "eval(x)"⟩

/-- A second such file at a different path. -/
def fileB : PyFile := ⟨"b.py", .ok "eval(y)"⟩

/-! ## Helper lemmas -/

/-- `get_exit_code` is 1 exactly when some issue is Critical or High. -/
theorem getExitCode_eq_any (issues : List SecurityIssue) :
    getExitCode issues = if issues.any critHigh then 1 else 0 := by
  induction issues with
  | nil => rfl
  | cons i rest ih =>
    by_cases h : critHigh i = true
    · simp [getExitCode, h]
    · simp only [Bool.not_eq_true] at h
      simp [getExitCode, h, ih]

/-- An unreadable file contributes no issues to `scan_code`. -/
theorem scanCodeFileIssues_unreadable (p e : String) :
    scanCodeFileIssues ⟨p, .unreadable e⟩ = [] := by
  unfold scanCodeFileIssues
  split <;> rfl

/-- The length of a packed character list. -/
theorem length_asString (l : List Char) : (List.asString l).length = l.length := rfl

/-- Anatomy of a membership in the hardcoded-secrets section: some
pattern matched, the guards held, and the finding is the constructed
record. -/
theorem mem_secretsFindings {path : String} {lines : List (Nat × String)}
    {f : SecurityIssue} (h : f ∈ secretsFindings path lines) :
    ∃ pm ∈ secretPatternsList, ∃ il ∈ lines, ∃ v : String,
      pm.1 il.2 = some v ∧ strContains il.2 "os.environ" = false ∧
      strContains il.2 "env(" = false ∧ 10 < v.length ∧
      placeholderValues.contains v = false ∧
      f = mkSecretIssue path il.1 il.2 pm.2 := by
  unfold secretsFindings at h
  rw [List.mem_flatMap] at h
  obtain ⟨pm, hpm, hf⟩ := h
  rw [List.mem_filterMap] at hf
  obtain ⟨il, hil, heq⟩ := hf
  refine ⟨pm, hpm, il, hil, ?_⟩
  cases hm : pm.1 il.2 with
  | none => simp [hm] at heq
  | some v =>
    simp only [hm] at heq
    simp at heq
    obtain ⟨⟨⟨⟨h1, h2⟩, h3⟩, h4⟩, h5⟩ := heq
    refine ⟨v, rfl, h1, h2, h3, ?_, h5.symm⟩
    simpa using h4

/-- The "DEBUG enabled" finding is about the DEBUG flag. -/
theorem aboutDebug_debugIssue (p : String) : aboutDebug (debugIssue p) = true := rfl

/-- The hardcoded-SECRET_KEY finding is not about the DEBUG flag. -/
theorem aboutDebug_secretIssue (p : String) :
    aboutDebug (hardcodedSecretKeyIssue p) = false := rfl

/-- The ALLOWED_HOSTS finding is not about the DEBUG flag. -/
theorem aboutDebug_hostsIssue (p : String) :
    aboutDebug (allowedHostsIssue p) = false := rfl

/-- The password-validators finding is not about the DEBUG flag. -/
theorem aboutDebug_pwdIssue (p : String) :
    aboutDebug (pwdValidatorsIssue p) = false := rfl

/-- The CSP finding is not about the DEBUG flag. -/
theorem aboutDebug_cspIssue (p : String) : aboutDebug (cspIssue p) = false := rfl

/-- No missing-middleware finding is about the DEBUG flag. -/
theorem aboutDebug_mwIssue (p : String) :
    ∀ mw ∈ requiredMiddleware, aboutDebug (missingMwIssue p mw) = false := by
  intro mw hmw
  simp only [requiredMiddleware, List.mem_cons, List.not_mem_nil, or_false] at hmw
  rcases hmw with rfl | rfl | rfl <;> rfl

/-- No missing-HTTPS-setting finding is about the DEBUG flag. -/
theorem aboutDebug_missingSetting (p : String) :
    ∀ s ∈ httpsSettingsList, aboutDebug (missingSettingIssue p s) = false := by
  intro s hs
  simp only [httpsSettingsList, List.mem_cons, List.not_mem_nil, or_false] at hs
  rcases hs with rfl | rfl | rfl | rfl | rfl <;> rfl

/-- No insecure-HTTPS-setting finding is about the DEBUG flag. -/
theorem aboutDebug_insecureSetting (p : String) :
    ∀ s ∈ httpsSettingsList, aboutDebug (insecureSettingIssue p s) = false := by
  intro s hs
  simp only [httpsSettingsList, List.mem_cons, List.not_mem_nil, or_false] at hs
  rcases hs with rfl | rfl | rfl | rfl | rfl <;> rfl

/-- Filtering a conditional singleton whose element fails the filter. -/
theorem filter_ite_singleton_nil {c : Prop} [Decidable c] {f : SecurityIssue}
    (hf : aboutDebug f = false) :
    (if c then [f] else []).filter aboutDebug = [] := by
  split <;> simp [hf]

/-- Filtering a flat map whose pieces all filter to nothing. -/
theorem filter_flatMap_nil {α : Type} {l : List α} {g : α → List SecurityIssue}
    (h : ∀ a ∈ l, (g a).filter aboutDebug = []) :
    (l.flatMap g).filter aboutDebug = [] := by
  induction l with
  | nil => rfl
  | cons a as ih =>
    rw [List.flatMap_cons, List.filter_append, h a (List.mem_cons_self a as),
      List.nil_append]
    exact ih fun b hb => h b (List.mem_cons_of_mem a hb)

/-- Events of one file's `scan_code` walk are never file-system writes. -/
theorem all_notWrite_fileEvents (f : PyFile) :
    (scanCodeFileEvents f).all eventNotWrite = true := by
  unfold scanCodeFileEvents
  by_cases hs : skipFile f = true
  · simp [hs]
  · simp only [Bool.not_eq_true] at hs
    cases hc : f.content <;> simp [hs, hc, eventNotWrite]

/-- Events of `scan_code`/`scan_multi_tenant` are never writes. -/
theorem all_notWrite_scanCodeEvents (files : List PyFile) :
    (scanCodeEvents files).all eventNotWrite = true := by
  induction files with
  | nil => rfl
  | cons f fs ih =>
    show (scanCodeFileEvents f ++ scanCodeEvents fs).all eventNotWrite = true
    simp [List.all_append, all_notWrite_fileEvents f, ih]

/-- Events of `scan_settings` are never writes. -/
theorem all_notWrite_settings (env : AuditEnv) :
    (settingsScanEvents env).all eventNotWrite = true := by
  cases h : env.settingsFile <;> simp [settingsScanEvents, h, eventNotWrite]

/-- Events of `scan_dependencies` are never writes. -/
theorem all_notWrite_deps (rf : Option String) (pip : PipStatus) (saf : SafetyStatus) :
    (scanDependenciesEvents rf pip saf).all eventNotWrite = true := by
  cases rf with
  | none => rfl
  | some r =>
    cases pip with
    | ran rc out => rfl
    | failed e => rfl
    | notFound =>
      cases saf with
      | notFound => rfl
      | failed e => rfl
      | ran out => cases out <;> rfl

/-! ## The claims -/

/-- C1 (code bug): `--fail-on` does not implement "exit 1 iff some
finding is at or above the given severity". The source compares the
severity token STRINGS lexicographically (`issue.severity.value <=
fail_severity.value`) and then still falls through to the default
Critical/High policy. Concretely: a Medium finding with `--fail-on low`
exits 0 (claim says 1, `"MEDIUM" <= "LOW"` is false and Medium is not
Critical/High); an Info finding with `--fail-on medium` exits 1 (claim
says 0, `"INFO" <= "MEDIUM"` is true); a High finding with `--fail-on
critical` exits 1 (claim says 0, the default policy is not
overridden). -/
theorem c1_fail_on_divergence :
    mainExitCode (scanMultiTenantIssues [⟨"views.py", .ok "items = Item.objects.all()"⟩])
        (some .low) = 0
  ∧ mainExitCode (scanDependenciesIssues (some "requirements.txt") .notFound .notFound)
        (some .medium) = 1
  ∧ mainExitCode (scanCodeIssues [⟨"views.py", .ok "return mark_safe(html)"⟩])
        (some .critical) = 1 :=
  ⟨by decide, by decide, by decide⟩

/-- C2 counterexample: the claim says `a < b` is false when `a` is more
severe than `b`; but `Severity.__lt__` maps more severe levels to
smaller ranks, so `CRITICAL < HIGH` evaluates to True. -/
theorem c2_counterexample : sevLt Severity.CRITICAL Severity.HIGH = true := rfl

/-- C2 amended: when `a` is more severe than `b`, `a < b` is TRUE (and
`b < a` is false) — the more severe level compares smaller — and a
stable sort of findings by this order is ascending in severity rank, so
all findings of the more severe level come before all findings of the
less severe one. -/
theorem c2_severity_order :
    (∀ a b : Severity, moreSevere a b → sevLt a b = true ∧ sevLt b a = false)
  ∧ (∀ (l : List SecurityIssue) (i j : Fin (sortIssues l).length), i < j →
      sevOrder ((sortIssues l).get i).severity
        ≤ sevOrder ((sortIssues l).get j).severity) := by
  constructor
  · intro a b h
    unfold moreSevere at h
    constructor
    · simp only [sevLt, decide_eq_true_eq]
      exact h
    · simp only [sevLt, decide_eq_false_iff_not]
      omega
  · intro l i j hij
    have hs : List.Sorted issueLe (sortIssues l) := List.sorted_insertionSort issueLe l
    exact List.pairwise_iff_get.1 hs i j hij

/-- C2 witness: the amended order facts at Critical/Info, and the sort
applied to an Info finding followed by a Critical one. -/
theorem c2_witness :
    (sevLt Severity.CRITICAL Severity.INFO = true
      ∧ sevLt Severity.INFO Severity.CRITICAL = false)
  ∧ sevOrder ((sortIssues [depsInfoIssue, debugIssue "s"]).get ⟨0, by decide⟩).severity
      ≤ sevOrder ((sortIssues [depsInfoIssue, debugIssue "s"]).get ⟨1, by decide⟩).severity :=
  ⟨c2_severity_order.1 Severity.CRITICAL Severity.INFO (by decide),
   c2_severity_order.2 [depsInfoIssue, debugIssue "s"] ⟨0, by decide⟩ ⟨1, by decide⟩
     (by decide)⟩

/-- C3: absent `--fail-on` the exit code is 1 exactly when some
collected finding is Critical or High (0 otherwise), and an unreadable
individual file contributes zero findings to `scan_code` — so it leaves
the collection, hence the exit code, unchanged. -/
theorem c3_exit_code_policy :
    (∀ issues : List SecurityIssue,
        mainExitCode issues none = if issues.any critHigh then 1 else 0)
  ∧ (∀ (pre post : List PyFile) (p e : String),
      scanCodeIssues (pre ++ ⟨p, .unreadable e⟩ :: post)
        = scanCodeIssues (pre ++ post)) := by
  constructor
  · intro issues
    exact getExitCode_eq_any issues
  · intro pre post p e
    unfold scanCodeIssues
    rw [List.flatMap_append, List.flatMap_append, List.flatMap_cons,
      scanCodeFileIssues_unreadable]
    simp

/-- C4 counterexample: the claim says a configuration file from which
the DEBUG flag is absent yields a Medium finding about that flag; but
scanning the empty settings content yields NO finding mentioning DEBUG
at all (the scanner has no absence rule for DEBUG). -/
theorem c4_counterexample :
    (scanSettingsContent "settings.py" "").filter aboutDebug = [] := by decide

/-- C4 amended: `DEBUG = True` present yields exactly one Critical
"DEBUG enabled" finding and no other finding about that flag; when the
debug-enabled pattern does not match (in particular when the flag is
absent), NO finding about the flag is produced. -/
theorem c4_debug_flag_findings :
    ∀ path content : String,
      (scanSettingsContent path content).filter aboutDebug
        = if debugTrueSearch content then [debugIssue path] else [] := by
  intro path content
  unfold scanSettingsContent
  simp only [List.filter_append]
  have h4 : (requiredMiddleware.flatMap fun mw =>
      if strContains content mw then [] else [missingMwIssue path mw]).filter
        aboutDebug = [] := by
    apply filter_flatMap_nil
    intro mw hm
    by_cases hc : strContains content mw = true
    · simp [hc]
    · simp only [Bool.not_eq_true] at hc
      simp [hc, aboutDebug_mwIssue path mw hm]
  have h5 : (httpsSettingsList.flatMap fun s =>
      if !(strContains content s.name) then [missingSettingIssue path s]
      else if settingFalseSearch s.name content then [insecureSettingIssue path s]
      else []).filter aboutDebug = [] := by
    apply filter_flatMap_nil
    intro s hs
    by_cases h1 : strContains content s.name = true
    · by_cases h2 : settingFalseSearch s.name content = true
      · simp [h1, h2, aboutDebug_insecureSetting path s hs]
      · simp only [Bool.not_eq_true] at h2
        simp [h1, h2]
    · simp only [Bool.not_eq_true] at h1
      simp [h1, aboutDebug_missingSetting path s hs]
  have h6 : (if strContains content "AUTH_PASSWORD_VALIDATORS" then []
      else [pwdValidatorsIssue path]).filter aboutDebug = [] := by
    by_cases hc : strContains content "AUTH_PASSWORD_VALIDATORS" = true
    · simp [hc]
    · simp only [Bool.not_eq_true] at hc
      simp [hc, aboutDebug_pwdIssue]
  rw [filter_ite_singleton_nil (aboutDebug_secretIssue path),
    filter_ite_singleton_nil (aboutDebug_hostsIssue path), h4, h5, h6,
    filter_ite_singleton_nil (aboutDebug_cspIssue path)]
  by_cases hd : debugTrueSearch content = true <;>
    simp [hd, aboutDebug_debugIssue]

/-- C5 counterexample: the claim says the line
`SECRET = "aVeryLongActualSecretValue123"` yields one Critical secret
finding; but `SECRET` alone matches none of the five secret-name
patterns (`SECRET_KEY`, `AWS_SECRET_ACCESS_KEY`, `api[_-]?key`,
`password`, `(auth|token)[_-]?key`), so zero Secrets findings result. -/
theorem c5_counterexample :
    (scanFileForVulnerabilities "app.py"
        "SECRET = \"aVeryLongActualSecretValue123\"").filter isSecretsIssue = [] := by
  decide

/-- C5 amended: with the name `SECRET_KEY` the same literal yields
exactly one Critical Secrets finding; the same assignment routed
through an environment-variable accessor yields none; and in general
every Secrets finding arises from one of the five patterns matching
with a captured literal longer than 10 characters that is not a
placeholder, on a line without `os.environ` or `env(`. -/
theorem c5_hardcoded_secret :
    ((scanFileForVulnerabilities "app.py"
        "SECRET_KEY = \"aVeryLongActualSecretValue123\"").filter isSecretsIssue
      = [mkSecretIssue "app.py" 1 "SECRET_KEY = \"aVeryLongActualSecretValue123\""
          "SECRET_KEY"])
  ∧ (mkSecretIssue "app.py" 1 "SECRET_KEY = \"aVeryLongActualSecretValue123\""
      "SECRET_KEY").severity = Severity.CRITICAL
  ∧ ((scanFileForVulnerabilities "app.py"
        "SECRET_KEY = os.environ.get(\"SECRET_KEY\", \"aVeryLongActualSecretValue123\")").filter
          isSecretsIssue = [])
  ∧ (∀ (path : String) (lines : List (Nat × String)) (f : SecurityIssue),
      f ∈ secretsFindings path lines →
        ∃ pm ∈ secretPatternsList, ∃ il ∈ lines, ∃ v : String,
          pm.1 il.2 = some v ∧ strContains il.2 "os.environ" = false ∧
          strContains il.2 "env(" = false ∧ 10 < v.length ∧
          placeholderValues.contains v = false ∧
          f = mkSecretIssue path il.1 il.2 pm.2) :=
  ⟨by decide, rfl, by decide, fun _ _ _ h => mem_secretsFindings h⟩

/-- C5 witness: the general clause of the amended claim applied to the
one-line file that produces the concrete SECRET_KEY finding. -/
theorem c5_witness :
    ∃ pm ∈ secretPatternsList,
      ∃ il ∈ [(1, "SECRET_KEY = \"aVeryLongActualSecretValue123\"")], ∃ v : String,
        pm.1 il.2 = some v ∧ strContains il.2 "os.environ" = false ∧
        strContains il.2 "env(" = false ∧ 10 < v.length ∧
        placeholderValues.contains v = false ∧
        mkSecretIssue "app.py" 1 "SECRET_KEY = \"aVeryLongActualSecretValue123\""
          "SECRET_KEY" = mkSecretIssue "app.py" il.1 il.2 pm.2 :=
  c5_hardcoded_secret.2.2.2 "app.py"
    [(1, "SECRET_KEY = \"aVeryLongActualSecretValue123\"")]
    (mkSecretIssue "app.py" 1 "SECRET_KEY = \"aVeryLongActualSecretValue123\""
      "SECRET_KEY") (by decide)

/-- C6 counterexample: the claim bounds every snippet by 100
characters; but a 116-character `eval(...)` line produces a
dangerous-function finding whose snippet is the whole stripped line
(116 characters) — only the secrets scanner truncates. -/
theorem c6_counterexample :
    (scanFileForVulnerabilities "x.py" longEvalLine).any
      (fun f => decide (100 < (f.code_snippet.getD "").length)) = true := by
  decide

/-- C6 amended: the truncation bound holds for the hardcoded-secret
findings (the one site applying `[:100]`): every Secrets finding's
snippet is at most 100 characters. -/
theorem c6_secret_snippet_bound :
    ∀ (path : String) (lines : List (Nat × String)) (f : SecurityIssue),
      f ∈ secretsFindings path lines → (f.code_snippet.getD "").length ≤ 100 := by
  intro path lines f h
  obtain ⟨pm, _, il, _, v, _, _, _, _, _, hf⟩ := mem_secretsFindings h
  rw [hf]
  show (((pyStrip il.2.toList).take 100).asString).length ≤ 100
  rw [length_asString]
  simp [List.length_take]

/-- C6 witness: the amended bound at the concrete SECRET_KEY finding. -/
theorem c6_witness :
    ((mkSecretIssue "app.py" 1 "SECRET_KEY = \"aVeryLongActualSecretValue123\""
        "SECRET_KEY").code_snippet.getD "").length ≤ 100 :=
  c6_secret_snippet_bound "app.py"
    [(1, "SECRET_KEY = \"aVeryLongActualSecretValue123\"")]
    (mkSecretIssue "app.py" 1 "SECRET_KEY = \"aVeryLongActualSecretValue123\""
      "SECRET_KEY") (by decide)

/-- C7 (code bug): with `--format json`, scanning a tree that has no
settings file writes the diagnostic `❌ Could not find settings.py` to
STDOUT — `scan_settings` uses a bare `print` that bypasses the `log`
helper, contradicting both the claim and the source's own comment that
only clean output goes to stdout for structured formats. -/
theorem c7_stdout_diagnostic :
    (runAudit envNoSettings .settings .json none false false).events.filter isStdoutMsg
      = [Event.msg .out "❌ Could not find settings.py"] := by
  decide

/-- C8: with a requirements file present, both lookup tools missing
yields exactly the one Info finding (and it is Info-severity); a tool
that runs but emits unparsable output yields zero findings; and the
run always continues to a rendered report of the collected issues. -/
theorem c8_dependency_failure_modes :
    (∀ rf : String, scanDependenciesIssues (some rf) .notFound .notFound = [depsInfoIssue])
  ∧ depsInfoIssue.severity = Severity.INFO
  ∧ (∀ (rf : String) (rc : Int) (st : SafetyStatus),
      scanDependenciesIssues (some rf) (.ran rc .unparsable) st = [])
  ∧ (∀ (env : AuditEnv) (fmt : OutFormat) (failOn : Option FailOn),
      (runAudit env .all fmt failOn false false).report
        = generateReport fmt (runAudit env .all fmt failOn false false).issues) := by
  refine ⟨fun rf => rfl, rfl, fun rf rc st => ?_, fun env fmt failOn => rfl⟩
  show (if rc = 0 then
      match PipAuditOut.unparsable with
      | .parsed deps => deps.map mkPipIssue
      | .unparsable => []
    else []) = []
  split <;> rfl

/-- C9 counterexample: two traversal orders of the same two-file tree
produce different JSON `issues` arrays, and they stay different even
after the severity sort with discovery-order tiebreak (both findings
are Critical, so the stable sort preserves each run's order). -/
theorem c9_counterexample :
    (generateJsonReport (scanCodeIssues [fileA, fileB])).issues
        ≠ (generateJsonReport (scanCodeIssues [fileB, fileA])).issues
  ∧ sortIssues (scanCodeIssues [fileA, fileB])
        ≠ sortIssues (scanCodeIssues [fileB, fileA]) :=
  ⟨by decide, by decide⟩

/-- C9 amended: traversal order can reorder the JSON issues array (the
JSON report applies no sort), but the MULTISET of findings is
traversal-invariant, and the whole run is a pure function of the
observed tree — re-running on an unchanged tree reproduces the same
output. -/
theorem c9_traversal_perm :
    (∀ l1 l2 : List PyFile, l1.Perm l2 → (scanCodeIssues l1).Perm (scanCodeIssues l2))
  ∧ (∀ (env : AuditEnv) (sel : ScanSel) (fmt : OutFormat) (failOn : Option FailOn)
        (a r : Bool),
      runAudit env sel fmt failOn a r = runAudit env sel fmt failOn a r) :=
  ⟨fun _ _ h => List.Perm.flatMap_right scanCodeFileIssues h,
   fun _ _ _ _ _ _ => rfl⟩

/-- C9 witness: the permutation clause at the concrete two-file tree. -/
theorem c9_witness :
    (scanCodeIssues [fileA, fileB]).Perm (scanCodeIssues [fileB, fileA]) :=
  c9_traversal_perm.1 [fileA, fileB] [fileB, fileA] (by decide)

/-- C10: the run's result (events, issues, report, exit code) is
identical whatever the auto-fix flags are, and no emitted event is a
file-system write — the `auto_fixable` attribute is classification
only and the engine never modifies the tree. -/
theorem c10_no_autofix_no_write :
    (∀ (env : AuditEnv) (sel : ScanSel) (fmt : OutFormat) (failOn : Option FailOn)
        (a1 r1 a2 r2 : Bool),
      runAudit env sel fmt failOn a1 r1 = runAudit env sel fmt failOn a2 r2)
  ∧ (∀ (env : AuditEnv) (sel : ScanSel) (fmt : OutFormat) (failOn : Option FailOn)
        (a r : Bool),
      (runAudit env sel fmt failOn a r).events.all eventNotWrite = true) := by
  constructor
  · intro env sel fmt failOn a1 r1 a2 r2
    rfl
  · intro env sel fmt failOn a r
    have h1 : (if selRuns sel .settings then
        Event.msg (logStream fmt) "🔍 Scanning Django settings..."
          :: settingsScanEvents env else []).all eventNotWrite = true := by
      split
      · simp [List.all_cons, eventNotWrite, all_notWrite_settings env]
      · rfl
    have h2 : (if selRuns sel .code then
        Event.msg (logStream fmt) "🔍 Scanning code for vulnerabilities..."
          :: scanCodeEvents env.pyFiles else []).all eventNotWrite = true := by
      split
      · simp [List.all_cons, eventNotWrite, all_notWrite_scanCodeEvents env.pyFiles]
      · rfl
    have h3 : (if selRuns sel .dependencies then
        Event.msg (logStream fmt) "🔍 Checking dependencies..."
          :: scanDependenciesEvents env.reqFile env.pipAudit env.safety
        else []).all eventNotWrite = true := by
      split
      · simp [List.all_cons, eventNotWrite,
          all_notWrite_deps env.reqFile env.pipAudit env.safety]
      · rfl
    have h4 : (if selRuns sel .multiTenant then
        Event.msg (logStream fmt) "🔍 Checking multi-tenant security..."
          :: scanMultiTenantEvents env.pyFiles else []).all eventNotWrite = true := by
      split
      · show (_ :: scanCodeEvents env.pyFiles).all eventNotWrite = true
        simp [List.all_cons, eventNotWrite, all_notWrite_scanCodeEvents env.pyFiles]
      · rfl
    simp only [runAudit]
    simp [List.all_append, h1, h2, h3, h4, eventNotWrite]

end SecurityAuditor
